import Mathlib

/-!
Shallow embedding of the penrose scratchpad extension
(src/contrib/extensions/scratchpad.rs) and proofs about it.

Modelling conventions:
- u32 window ids and pixel coordinates are modelled as Nat (screen geometry
  stays far below 2^32, so wraparound is not modelled); u32 subtraction is
  Nat truncated subtraction, matching Rust wherever no underflow occurs.
- the f32 width and height fractions are modelled as rationals; the cast
  `(sw as f32 * self.w) as u32` becomes the floor of the rational product,
  clamped to 0 from below exactly as the Rust float-to-unsigned cast is.
- a Rust panic (in Anchor::new, Scratchpad::new and the unreachable arms of
  get_position) is modelled as Except.error respectively Option.none.
- the interior-mutable fields client, pending, visible of the Scratchpad
  struct are split off into an explicit OverlayState value threaded through
  each entry point; the immutable configuration stays in Scratchpad.
- each entry point returns, besides the new state, the list of host calls it
  issued, in order.
-/

/-- Position of an Anchor, as in the source enum AnchorPosition. -/
inductive AnchorPosition where
  | Top
  | Center
  | Bottom
  | Left
  | Right
  deriving Repr, DecidableEq

/-- Where a Scratchpad should be placed on the screen (struct Anchor). -/
structure Anchor where
  horizontal : AnchorPosition
  vertical : AnchorPosition
  offset : Nat × Nat
  deriving Repr, DecidableEq

/-- Transcription of Anchor::new; the two panics become Except.error. -/
def Anchor.new (horizontal vertical : AnchorPosition) (offset : Nat × Nat) :
    Except String Anchor :=
  if horizontal = .Top ∨ horizontal = .Bottom then
    .error "Scratchpad: invalid horizontal anchor"
  else if vertical = .Left ∨ vertical = .Right then
    .error "Scratchpad: invalid vertical anchor"
  else
    .ok { horizontal := horizontal, vertical := vertical, offset := offset }

/-- Transcription of Anchor::default: Anchor::new(Center, Center, (0, 0)). -/
def Anchor.default : Except String Anchor :=
  Anchor.new .Center .Center (0, 0)

/-- Screen region in pixels, as the source Region type (x, y, width, height). -/
structure Region where
  x : Nat
  y : Nat
  w : Nat
  h : Nat
  deriving Repr, DecidableEq

/-- Transcription of Region::new. -/
def Region.new (x y w h : Nat) : Region :=
  { x := x, y := y, w := w, h := h }

/-- Immutable configuration part of the Scratchpad struct. -/
structure Scratchpad where
  prog : String
  w : ℚ
  h : ℚ
  anchor : Anchor

/-- Transcription of Scratchpad::new; the range-check panic becomes
Except.error. The three RefCell fields start as None, false, false and are
modelled by OverlayState.initial separately. -/
def Scratchpad.new (prog : String) (w h : ℚ) (anchor : Anchor) :
    Except String Scratchpad :=
  if w < 0 ∨ 1 < w ∨ h < 0 ∨ 1 < h then
    .error "Scratchpad: w and h must be between 0.0 and 1.0"
  else
    .ok { prog := prog, w := w, h := h, anchor := anchor }

/-- The mutable state of a Scratchpad: the client, pending and visible
RefCells of the source struct (initialised in Scratchpad::new). -/
structure OverlayState where
  client : Option Nat
  pending : Bool
  visible : Bool
  deriving Repr, DecidableEq

/-- Initial contents of the three RefCells set up in Scratchpad::new. -/
def OverlayState.initial : OverlayState :=
  { client := none, pending := false, visible := false }

/-- The two cross-field invariants of the state record. -/
def OverlayState.inv (st : OverlayState) : Prop :=
  (st.pending = true → st.client = none) ∧
  (st.visible = true → st.client ≠ none)

instance (st : OverlayState) : Decidable st.inv :=
  inferInstanceAs (Decidable (_ ∧ _))

/-- Host calls the Scratchpad issues (spawn is the free helper function, the
rest are WindowManager methods respectively the Client method
externally_managed). -/
inductive HostCall where
  | spawn (prog : String)
  | hide_client (id : Nat)
  | show_client (id : Nat)
  | position_client (id : Nat) (r : Region)
  | externally_managed (id : Nat)
  | layout_screen (screen : Nat)
  deriving Repr, DecidableEq

/-- Tests whether a host call is a spawn. -/
def HostCall.isSpawn : HostCall → Bool
  | .spawn _ => true
  | _ => false

/-- Modelled from the spec: the WindowManager type is code of this repository
that is not under src. Only the two queries the scratchpad reads from it are
modelled: the active screen index and the per-index screen region lookup
(spec section 6: activeScreenRegion, screenRegion(index) -> Option). -/
structure WindowManager where
  active_screen_index : Nat
  screen_size : Nat → Option Region

/-- The width or height computation (sw as f32 * self.w) as u32 of
get_position: floor of the rational product, clamped below at 0. -/
def scale_frac (s : Nat) (f : ℚ) : Nat :=
  (⌊(s : ℚ) * f⌋).toNat

/-- Horizontal match arm of Scratchpad::get_position; the unreachable arm
(Top or Bottom) is none. -/
def anchor_x (a : AnchorPosition) (sx sw w : Nat) : Option Nat :=
  match a with
  | .Left => some sx
  | .Right => some (sx + sw - w)
  | .Center => some (sx + (sw - w) / 2)
  | _ => none

/-- Vertical match arm of Scratchpad::get_position; the unreachable arm
(Left or Right) is none. -/
def anchor_y (a : AnchorPosition) (sy sh h : Nat) : Option Nat :=
  match a with
  | .Top => some sy
  | .Bottom => some (sy + sh - h)
  | .Center => some (sy + (sh - h) / 2)
  | _ => none

/-- Transcription of Scratchpad::get_position; none models a panic in one of
the unreachable arms. -/
def Scratchpad.get_position (sp : Scratchpad) (screen : Region) :
    Option Region := do
  let w := scale_frac screen.w sp.w
  let h := scale_frac screen.h sp.h
  let xbase ← anchor_x sp.anchor.horizontal screen.x screen.w w
  let ybase ← anchor_y sp.anchor.vertical screen.y screen.h h
  pure (Region.new (xbase + sp.anchor.offset.1) (ybase + sp.anchor.offset.2) w h)

/-- Transcription of the Hook method Scratchpad::layout_applied. -/
def Scratchpad.layout_applied (sp : Scratchpad) (wm : WindowManager)
    (st : OverlayState) (screen_index : Nat) :
    Option (OverlayState × List HostCall) :=
  match st.client with
  | none => some (st, [])
  | some id =>
    if st.visible then
      match wm.screen_size screen_index with
      | some region =>
        match sp.get_position region with
        | some r => some (st, [.position_client id r, .show_client id])
        | none => none
      | none => some (st, [.show_client id])
    else
      some (st, [])

/-- Transcription of Scratchpad::toggle_client. The source call
wm.layout_screen(wm.active_screen_index()) is a command to the host; modelled
from the spec: the WindowManager (not under src) re-applies layout on that
screen and invokes the layout_applied hook with the same screen index (the
source marks the call with: caught by layout_change). -/
def Scratchpad.toggle_client (sp : Scratchpad) (wm : WindowManager)
    (st : OverlayState) : Option (OverlayState × List HostCall) :=
  match st.client with
  | none =>
    some ({ st with pending := true, visible := false }, [.spawn sp.prog])
  | some id =>
    if st.visible then
      some ({ st with visible := false }, [.hide_client id])
    else
      let st1 := { st with visible := true }
      match sp.layout_applied wm st1 wm.active_screen_index with
      | some (st2, calls) =>
        some (st2, .layout_screen wm.active_screen_index :: calls)
      | none => none

/-- Transcription of the Hook method Scratchpad::new_client; the call
c.externally_managed() is recorded as a host call on the new client id. -/
def Scratchpad.new_client (sp : Scratchpad) (wm : WindowManager)
    (st : OverlayState) (c : Nat) : Option (OverlayState × List HostCall) :=
  if st.pending && st.client.isNone then
    let st1 := { st with pending := false, client := some c }
    match sp.toggle_client wm st1 with
    | some (st2, calls) => some (st2, .externally_managed c :: calls)
    | none => none
  else
    some (st, [])

/-- Transcription of the Hook method Scratchpad::remove_client (it never
panics and issues no host calls). -/
def Scratchpad.remove_client (_sp : Scratchpad) (_wm : WindowManager)
    (st : OverlayState) (id : Nat) : OverlayState × List HostCall :=
  match st.client with
  | none => (st, [])
  | some cl =>
    if id = cl then ({ st with client := none, visible := false }, [])
    else (st, [])

/-- Example configuration used by the concrete witnesses. -/
def anchorEx : Anchor :=
  { horizontal := .Center, vertical := .Center, offset := (0, 0) }

/-- Example scratchpad used by the concrete witnesses. -/
def spEx : Scratchpad :=
  { prog := "term", w := 1 / 2, h := 1 / 2, anchor := anchorEx }

/-- Example screen used by the concrete witnesses. -/
def screenEx : Region := Region.new 0 0 1000 800

/-- Example window manager used by the concrete witnesses. -/
def wmEx : WindowManager :=
  { active_screen_index := 0
    screen_size := fun i => if i = 0 then some screenEx else none }

/-- Concrete evaluation of scale_frac for the witness screen width. -/
theorem scale_frac_1000_half : scale_frac 1000 (1 / 2) = 500 := by
  unfold scale_frac
  norm_num
  decide

/-- Concrete evaluation of scale_frac for the witness screen height. -/
theorem scale_frac_800_half : scale_frac 800 (1 / 2) = 400 := by
  unfold scale_frac
  norm_num
  decide

/-- Concrete evaluation of get_position for the witness configuration. -/
theorem get_position_spEx :
    spEx.get_position screenEx = some (Region.new 250 200 500 400) := by
  simp only [Scratchpad.get_position, spEx, screenEx, anchorEx, anchor_x,
    anchor_y, Region.new, scale_frac_1000_half, scale_frac_800_half,
    Option.bind_eq_bind, Option.some_bind]
  rfl

/-- Branch equation: layout_applied with no tracked client does nothing. -/
theorem layout_applied_no_client (sp : Scratchpad) (wm : WindowManager)
    (st : OverlayState) (i : Nat) (hc : st.client = none) :
    sp.layout_applied wm st i = some (st, []) := by
  unfold Scratchpad.layout_applied
  rw [hc]

/-- Branch equation: layout_applied with a tracked but not visible client does
nothing. -/
theorem layout_applied_not_visible (sp : Scratchpad) (wm : WindowManager)
    (st : OverlayState) (i : Nat) (id : Nat) (hc : st.client = some id)
    (hv : st.visible = false) :
    sp.layout_applied wm st i = some (st, []) := by
  unfold Scratchpad.layout_applied
  rw [hc]
  simp [hv]

/-- Branch equation: layout_applied in the visible state with a resolvable
screen positions and shows the client. -/
theorem layout_applied_visible_eq (sp : Scratchpad) (wm : WindowManager)
    (st : OverlayState) (i : Nat) (id : Nat) (region r : Region)
    (hc : st.client = some id) (hv : st.visible = true)
    (hs : wm.screen_size i = some region)
    (hg : sp.get_position region = some r) :
    sp.layout_applied wm st i =
      some (st, [.position_client id r, .show_client id]) := by
  unfold Scratchpad.layout_applied
  rw [hc]
  simp [hv, hs, hg]

/-- Branch equation: layout_applied in the visible state with an unresolvable
screen index skips positioning but still shows the client. -/
theorem layout_applied_no_region (sp : Scratchpad) (wm : WindowManager)
    (st : OverlayState) (i : Nat) (id : Nat)
    (hc : st.client = some id) (hv : st.visible = true)
    (hs : wm.screen_size i = none) :
    sp.layout_applied wm st i = some (st, [.show_client id]) := by
  unfold Scratchpad.layout_applied
  rw [hc]
  simp [hv, hs]

/-- Whenever layout_applied succeeds, the state is returned unchanged. -/
theorem layout_applied_state_eq (sp : Scratchpad) (wm : WindowManager)
    (st : OverlayState) (i : Nat) (st' : OverlayState) (calls : List HostCall)
    (h : sp.layout_applied wm st i = some (st', calls)) : st' = st := by
  unfold Scratchpad.layout_applied at h
  split at h
  · simp_all
  · split at h
    · split at h
      · split at h
        · simp_all
        · simp_all
      · simp_all
    · simp_all

/-- Layout re-assertion never issues a spawn. -/
theorem layout_applied_no_spawn (sp : Scratchpad) (wm : WindowManager)
    (st : OverlayState) (i : Nat) (st' : OverlayState) (calls : List HostCall)
    (h : sp.layout_applied wm st i = some (st', calls)) :
    calls.countP HostCall.isSpawn = 0 := by
  unfold Scratchpad.layout_applied at h
  split at h
  · injection h with h
    injection h with h1 h2
    subst h2
    simp [List.countP, List.countP.go]
  · split at h
    · split at h
      · split at h
        · injection h with h
          injection h with h1 h2
          subst h2
          simp [List.countP, List.countP.go, HostCall.isSpawn]
        · simp_all
      · injection h with h
        injection h with h1 h2
        subst h2
        simp [List.countP, List.countP.go, HostCall.isSpawn]
    · injection h with h
      injection h with h1 h2
      subst h2
      simp [List.countP, List.countP.go]

/-- Branch equation: toggle_client with no tracked client spawns the program
and parks the state at Pending, unconditionally. -/
theorem toggle_client_no_client (sp : Scratchpad) (wm : WindowManager)
    (st : OverlayState) (hc : st.client = none) :
    sp.toggle_client wm st =
      some ({ st with pending := true, visible := false },
        [.spawn sp.prog]) := by
  unfold Scratchpad.toggle_client
  rw [hc]

/-- Branch equation: toggle_client on a visible tracked client hides it. -/
theorem toggle_client_visible (sp : Scratchpad) (wm : WindowManager)
    (st : OverlayState) (id : Nat) (hc : st.client = some id)
    (hv : st.visible = true) :
    sp.toggle_client wm st =
      some ({ st with visible := false }, [.hide_client id]) := by
  unfold Scratchpad.toggle_client
  rw [hc]
  simp [hv]

/-- Branch equation: toggle_client on a hidden tracked client marks it visible
and triggers a layout pass on the active screen, whose hook re-entry
positions and shows the client. -/
theorem toggle_client_hidden (sp : Scratchpad) (wm : WindowManager)
    (st : OverlayState) (id : Nat) (region r : Region)
    (hc : st.client = some id) (hv : st.visible = false)
    (hs : wm.screen_size wm.active_screen_index = some region)
    (hg : sp.get_position region = some r) :
    sp.toggle_client wm st =
      some ({ st with visible := true },
        [.layout_screen wm.active_screen_index, .position_client id r,
         .show_client id]) := by
  obtain ⟨cl, p, v⟩ := st
  subst hc hv
  unfold Scratchpad.toggle_client
  simp only [Bool.false_eq_true, if_false]
  rw [layout_applied_visible_eq sp wm ⟨some id, p, true⟩
    wm.active_screen_index id region r rfl rfl hs hg]

/-- The toggle entry point preserves the state invariants. -/
theorem inv_toggle (sp : Scratchpad) (wm : WindowManager) (st st' : OverlayState)
    (calls : List HostCall) (hinv : st.inv)
    (h : sp.toggle_client wm st = some (st', calls)) : st'.inv := by
  obtain ⟨cl, p, v⟩ := st
  obtain ⟨h1, h2⟩ := hinv
  rcases hcl : cl with _ | id
  · subst hcl
    rw [toggle_client_no_client sp wm ⟨none, p, v⟩ rfl] at h
    injection h with h
    injection h with hst hcalls
    rw [← hst]
    simp [OverlayState.inv]
  · subst hcl
    have hp : p = false := by
      cases p
      · rfl
      · exact absurd (h1 rfl) (by simp)
    subst hp
    rcases hv : v with _ | _
    · subst hv
      unfold Scratchpad.toggle_client at h
      simp only [Bool.false_eq_true, if_false] at h
      rcases hla : sp.layout_applied wm ⟨some id, false, true⟩
          wm.active_screen_index with _ | ⟨st2, calls2⟩
      · rw [hla] at h
        exact absurd h (by simp)
      · rw [hla] at h
        simp only [Option.some.injEq, Prod.mk.injEq] at h
        obtain ⟨hst, -⟩ := h
        rw [← hst, layout_applied_state_eq sp wm _ _ _ _ hla]
        simp [OverlayState.inv]
    · subst hv
      rw [toggle_client_visible sp wm ⟨some id, false, true⟩ id rfl rfl] at h
      injection h with h
      injection h with hst hcalls
      rw [← hst]
      simp [OverlayState.inv]

/-- The new_client hook preserves the state invariants. -/
theorem inv_new_client (sp : Scratchpad) (wm : WindowManager)
    (st : OverlayState) (c : Nat) (st' : OverlayState) (calls : List HostCall)
    (hinv : st.inv) (h : sp.new_client wm st c = some (st', calls)) :
    st'.inv := by
  unfold Scratchpad.new_client at h
  split at h
  · rcases htc : sp.toggle_client wm { st with pending := false, client := some c }
        with _ | ⟨st2, calls2⟩
    · simp only [htc] at h
      exact absurd h (by simp)
    · simp only [htc, Option.some.injEq, Prod.mk.injEq] at h
      obtain ⟨hst, -⟩ := h
      have hinv1 : OverlayState.inv { st with pending := false, client := some c } := by
        simp [OverlayState.inv]
      rw [← hst]
      exact inv_toggle sp wm _ st2 calls2 hinv1 htc
  · injection h with h
    injection h with hst hcalls
    rw [← hst]
    exact hinv

/-- The remove_client hook preserves the state invariants. -/
theorem inv_remove_client (sp : Scratchpad) (wm : WindowManager)
    (st : OverlayState) (id : Nat) (hinv : st.inv) :
    ((sp.remove_client wm st id).1).inv := by
  unfold Scratchpad.remove_client
  obtain ⟨cl, p, v⟩ := st
  rcases cl with _ | c
  · exact hinv
  · by_cases hid : id = c
    · simp only [hid, if_pos rfl]
      simp [OverlayState.inv]
    · simp only [if_neg hid]
      exact hinv

/-- The layout_applied hook preserves the state invariants. -/
theorem inv_layout_applied (sp : Scratchpad) (wm : WindowManager)
    (st : OverlayState) (i : Nat) (st' : OverlayState) (calls : List HostCall)
    (hinv : st.inv) (h : sp.layout_applied wm st i = some (st', calls)) :
    st'.inv := by
  rw [layout_applied_state_eq sp wm st i st' calls h]
  exact hinv

/-- A toggle on a tracked client never issues a spawn. -/
theorem toggle_client_some_no_spawn (sp : Scratchpad) (wm : WindowManager)
    (st st' : OverlayState) (id : Nat) (calls : List HostCall)
    (hc : st.client = some id)
    (h : sp.toggle_client wm st = some (st', calls)) :
    calls.countP HostCall.isSpawn = 0 := by
  obtain ⟨cl, p, v⟩ := st
  subst hc
  rcases v with _ | _
  · unfold Scratchpad.toggle_client at h
    simp only [Bool.false_eq_true, if_false] at h
    rcases hla : sp.layout_applied wm ⟨some id, p, true⟩ wm.active_screen_index
        with _ | ⟨st2, calls2⟩
    · rw [hla] at h
      exact absurd h (by simp)
    · rw [hla] at h
      simp only [Option.some.injEq, Prod.mk.injEq] at h
      obtain ⟨-, hcalls⟩ := h
      subst hcalls
      have h0 := layout_applied_no_spawn sp wm ⟨some id, p, true⟩
        wm.active_screen_index st2 calls2 hla
      simp [List.countP_cons, HostCall.isSpawn, h0]
  · rw [toggle_client_visible sp wm ⟨some id, p, true⟩ id rfl rfl] at h
    injection h with h
    injection h with h1 h2
    subst h2
    simp [List.countP, List.countP.go, HostCall.isSpawn]

/-- For a fraction at most 1 the scaled length never exceeds the screen
length. -/
theorem scale_frac_le (s : Nat) (f : ℚ) (hf : f ≤ 1) : scale_frac s f ≤ s := by
  unfold scale_frac
  have h1 : (s : ℚ) * f ≤ (s : ℚ) := mul_le_of_le_one_right (by positivity) hf
  have h2 : ⌊(s : ℚ) * f⌋ ≤ (s : ℤ) := by
    calc ⌊(s : ℚ) * f⌋ ≤ ⌊(s : ℚ)⌋ := Int.floor_le_floor h1
      _ = (s : ℤ) := Int.floor_natCast s
  omega

/-- A successfully constructed Anchor has a valid axis combination. -/
theorem Anchor.new_ok (hp vp : AnchorPosition) (off : Nat × Nat) (a : Anchor)
    (h : Anchor.new hp vp off = .ok a) :
    a.horizontal ≠ .Top ∧ a.horizontal ≠ .Bottom ∧
    a.vertical ≠ .Left ∧ a.vertical ≠ .Right := by
  unfold Anchor.new at h
  split at h
  · exact absurd h (by simp)
  · split at h
    · exact absurd h (by simp)
    · injection h with h
      subst h
      rename_i h1 h2
      push_neg at h1 h2
      exact ⟨h1.1, h1.2, h2.1, h2.2⟩

/-- With a valid axis combination, get_position never hits an unreachable
arm, whatever the screen region. -/
theorem get_position_isSome (sp : Scratchpad)
    (h1 : sp.anchor.horizontal ≠ .Top) (h2 : sp.anchor.horizontal ≠ .Bottom)
    (h3 : sp.anchor.vertical ≠ .Left) (h4 : sp.anchor.vertical ≠ .Right)
    (screen : Region) : (sp.get_position screen).isSome = true := by
  unfold Scratchpad.get_position
  cases hx : sp.anchor.horizontal <;> cases hy : sp.anchor.vertical <;>
    simp_all [anchor_x, anchor_y]

/-- C1 counterexample: in the Pending state (no tracked window, pendingSpawn
set) toggle_client is not a no-op: it issues a host action, namely a second
spawn, and the first toggle from Empty already issued one, so two consecutive
toggles from Empty spawn twice, not once. -/
theorem toggle_while_pending_counterexample :
    spEx.toggle_client wmEx { client := none, pending := true, visible := false } =
      some ({ client := none, pending := true, visible := false },
        [HostCall.spawn "term"]) ∧
    ([HostCall.spawn "term"] : List HostCall) ≠ [] ∧
    spEx.toggle_client wmEx OverlayState.initial =
      some ({ client := none, pending := true, visible := false },
        [HostCall.spawn "term"]) := by
  decide

/-- C1 amended: a toggle in any state with no tracked window - the Pending
state included - issues exactly one further spawn of the configured command
and leaves the state at Pending; hence two consecutive toggles starting from
Empty call spawn twice in total, not once. -/
theorem toggle_while_pending_spawns_again (sp : Scratchpad)
    (wm : WindowManager) (st : OverlayState) (hc : st.client = none)
    (hp : st.pending = true) :
    sp.toggle_client wm st =
      some ({ client := none, pending := true, visible := false },
        [HostCall.spawn sp.prog]) := by
  obtain ⟨cl, p, v⟩ := st
  subst hc hp
  exact toggle_client_no_client sp wm ⟨none, true, v⟩ rfl

/-- Witness for the amended C1 at a concrete Pending state. -/
theorem toggle_while_pending_spawns_again_witness :
    spEx.toggle_client wmEx { client := none, pending := true, visible := false } =
      some ({ client := none, pending := true, visible := false },
        [HostCall.spawn spEx.prog]) :=
  toggle_while_pending_spawns_again spEx wmEx
    { client := none, pending := true, visible := false } rfl rfl

/-- C2: the two state invariants (pending implies no tracked window, visible
implies a tracked window) hold in the initial state and are preserved by
toggle_client, new_client, remove_client and layout_applied, for every state
satisfying them and every input. -/
theorem state_invariants_preserved :
    OverlayState.initial.inv ∧
    (∀ (sp : Scratchpad) (wm : WindowManager) (st st' : OverlayState)
      (calls : List HostCall), st.inv →
      sp.toggle_client wm st = some (st', calls) → st'.inv) ∧
    (∀ (sp : Scratchpad) (wm : WindowManager) (st : OverlayState) (c : Nat)
      (st' : OverlayState) (calls : List HostCall), st.inv →
      sp.new_client wm st c = some (st', calls) → st'.inv) ∧
    (∀ (sp : Scratchpad) (wm : WindowManager) (st : OverlayState) (id : Nat),
      st.inv → ((sp.remove_client wm st id).1).inv) ∧
    (∀ (sp : Scratchpad) (wm : WindowManager) (st : OverlayState) (i : Nat)
      (st' : OverlayState) (calls : List HostCall), st.inv →
      sp.layout_applied wm st i = some (st', calls) → st'.inv) :=
  ⟨by decide,
   fun sp wm st st' calls hinv h => inv_toggle sp wm st st' calls hinv h,
   fun sp wm st c st' calls hinv h => inv_new_client sp wm st c st' calls hinv h,
   fun sp wm st id hinv => inv_remove_client sp wm st id hinv,
   fun sp wm st i st' calls hinv h => inv_layout_applied sp wm st i st' calls hinv h⟩

/-- Witness for C2: invariant preservation applied to a concrete toggle. -/
theorem state_invariants_preserved_witness :
    ({ client := none, pending := true, visible := false } : OverlayState).inv :=
  state_invariants_preserved.2.1 spEx wmEx OverlayState.initial
    { client := none, pending := true, visible := false }
    [HostCall.spawn "term"] (by decide) (by decide)

/-- C3: while Pending with no tracked window (hence, by the invariants, not
visible), new_client tracks the window, clears pending, ends Visible and
issues externally_managed, position and show for it exactly once each (the
latter two through the layout pass it triggers, assuming the active screen
resolves and the anchor is valid); in any state that is not Pending it leaves
the state unchanged and issues no host calls. -/
theorem new_client_claims_window (sp : Scratchpad) (wm : WindowManager)
    (st : OverlayState) (c : Nat) (region r : Region) :
    (st.pending = true → st.client = none → st.visible = false →
      wm.screen_size wm.active_screen_index = some region →
      sp.get_position region = some r →
      sp.new_client wm st c =
        some ({ client := some c, pending := false, visible := true },
          [HostCall.externally_managed c,
           HostCall.layout_screen wm.active_screen_index,
           HostCall.position_client c r, HostCall.show_client c])) ∧
    (¬ (st.pending = true ∧ st.client = none) →
      sp.new_client wm st c = some (st, [])) := by
  constructor
  · intro hp hc hv hs hg
    obtain ⟨cl, p, v⟩ := st
    subst hp hc hv
    rw [show sp.new_client wm ⟨none, true, false⟩ c =
        (match sp.toggle_client wm ⟨some c, false, false⟩ with
          | some (st2, cs) => some (st2, HostCall.externally_managed c :: cs)
          | none => none) from rfl]
    rw [toggle_client_hidden sp wm ⟨some c, false, false⟩ c region r rfl rfl hs hg]
  · intro hnp
    unfold Scratchpad.new_client
    split
    · rename_i hgu
      rw [Bool.and_eq_true, Option.isNone_iff_eq_none] at hgu
      exact absurd hgu hnp
    · rfl

/-- Witness for C3 at a concrete Pending state and window id 7. -/
theorem new_client_claims_window_witness :
    spEx.new_client wmEx { client := none, pending := true, visible := false } 7 =
      some ({ client := some 7, pending := false, visible := true },
        [HostCall.externally_managed 7, HostCall.layout_screen 0,
         HostCall.position_client 7 (Region.new 250 200 500 400),
         HostCall.show_client 7]) :=
  (new_client_claims_window spEx wmEx
    { client := none, pending := true, visible := false } 7 screenEx
    (Region.new 250 200 500 400)).1 rfl rfl rfl rfl get_position_spEx

/-- C4: a toggle in the Empty state spawns the configured command exactly
once, issues no show, hide or position call, and leaves the state at
Pending. -/
theorem toggle_from_empty (sp : Scratchpad) (wm : WindowManager)
    (st : OverlayState) (hc : st.client = none) (hp : st.pending = false) :
    sp.toggle_client wm st =
      some ({ client := none, pending := true, visible := false },
        [HostCall.spawn sp.prog]) := by
  obtain ⟨cl, p, v⟩ := st
  subst hc hp
  exact toggle_client_no_client sp wm ⟨none, false, v⟩ rfl

/-- Witness for C4 at the initial state. -/
theorem toggle_from_empty_witness :
    spEx.toggle_client wmEx OverlayState.initial =
      some ({ client := none, pending := true, visible := false },
        [HostCall.spawn spEx.prog]) :=
  toggle_from_empty spEx wmEx OverlayState.initial rfl rfl

/-- C5: with a tracked window toggle never spawns; from Visible it hides the
window and moves to Hidden; from Hidden it marks the state visible and
triggers a layout pass on the active screen that positions and shows the
window (active screen resolvable, valid anchor). -/
theorem toggle_with_tracked_window (sp : Scratchpad) (wm : WindowManager)
    (st : OverlayState) (id : Nat) (region r : Region)
    (hc : st.client = some id) :
    (st.visible = true →
      sp.toggle_client wm st =
        some ({ st with visible := false }, [HostCall.hide_client id])) ∧
    (st.visible = false →
      wm.screen_size wm.active_screen_index = some region →
      sp.get_position region = some r →
      sp.toggle_client wm st =
        some ({ st with visible := true },
          [HostCall.layout_screen wm.active_screen_index,
           HostCall.position_client id r, HostCall.show_client id])) ∧
    (∀ (st' : OverlayState) (calls : List HostCall),
      sp.toggle_client wm st = some (st', calls) →
      calls.countP HostCall.isSpawn = 0) :=
  ⟨fun hv => toggle_client_visible sp wm st id hc hv,
   fun hv hs hg => toggle_client_hidden sp wm st id region r hc hv hs hg,
   fun st' calls h => toggle_client_some_no_spawn sp wm st st' id calls hc h⟩

/-- Witness for C5: both toggle directions at a concrete tracked state. -/
theorem toggle_with_tracked_window_witness :
    spEx.toggle_client wmEx { client := some 7, pending := false, visible := true } =
      some ({ client := some 7, pending := false, visible := false },
        [HostCall.hide_client 7]) ∧
    spEx.toggle_client wmEx { client := some 7, pending := false, visible := false } =
      some ({ client := some 7, pending := false, visible := true },
        [HostCall.layout_screen 0,
         HostCall.position_client 7 (Region.new 250 200 500 400),
         HostCall.show_client 7]) :=
  ⟨(toggle_with_tracked_window spEx wmEx
      { client := some 7, pending := false, visible := true } 7 screenEx
      (Region.new 250 200 500 400) rfl).1 rfl,
   (toggle_with_tracked_window spEx wmEx
      { client := some 7, pending := false, visible := false } 7 screenEx
      (Region.new 250 200 500 400) rfl).2.1 rfl rfl get_position_spEx⟩

/-- C6: layout_applied in the Visible state re-issues position (when the
screen index resolves and the anchor is valid) and show and keeps the state;
with an unresolvable screen index positioning is silently skipped and only
show is issued; in the Empty, Pending or Hidden state it issues nothing and
changes nothing. -/
theorem layout_applied_reasserts (sp : Scratchpad) (wm : WindowManager)
    (st : OverlayState) (i : Nat) (id : Nat) :
    (st.client = some id → st.visible = true →
      (∀ (region r : Region), wm.screen_size i = some region →
        sp.get_position region = some r →
        sp.layout_applied wm st i =
          some (st, [HostCall.position_client id r, HostCall.show_client id])) ∧
      (wm.screen_size i = none →
        sp.layout_applied wm st i = some (st, [HostCall.show_client id]))) ∧
    (st.client = none ∨ st.visible = false →
      sp.layout_applied wm st i = some (st, [])) :=
  ⟨fun hc hv =>
    ⟨fun region r hs hg =>
      layout_applied_visible_eq sp wm st i id region r hc hv hs hg,
     fun hs => layout_applied_no_region sp wm st i id hc hv hs⟩,
   fun h => by
    rcases h with h | h
    · exact layout_applied_no_client sp wm st i h
    · rcases hcl : st.client with _ | id2
      · exact layout_applied_no_client sp wm st i hcl
      · exact layout_applied_not_visible sp wm st i id2 hcl h⟩

/-- Witness for C6: resolvable screen, unresolvable screen, and a state with
no client. -/
theorem layout_applied_reasserts_witness :
    spEx.layout_applied wmEx { client := some 7, pending := false, visible := true } 0 =
      some ({ client := some 7, pending := false, visible := true },
        [HostCall.position_client 7 (Region.new 250 200 500 400),
         HostCall.show_client 7]) ∧
    spEx.layout_applied wmEx { client := some 7, pending := false, visible := true } 5 =
      some ({ client := some 7, pending := false, visible := true },
        [HostCall.show_client 7]) ∧
    spEx.layout_applied wmEx { client := none, pending := false, visible := false } 0 =
      some ({ client := none, pending := false, visible := false }, []) :=
  ⟨((layout_applied_reasserts spEx wmEx
      { client := some 7, pending := false, visible := true } 0 7).1 rfl rfl).1
      screenEx (Region.new 250 200 500 400) rfl get_position_spEx,
   ((layout_applied_reasserts spEx wmEx
      { client := some 7, pending := false, visible := true } 5 7).1 rfl rfl).2 rfl,
   (layout_applied_reasserts spEx wmEx
      { client := none, pending := false, visible := false } 0 7).2 (Or.inl rfl)⟩

/-- C7: remove_client with the tracked window id resets the state to Empty
(pending being false already in any Hidden or Visible state) and issues no
host action; with a different id, or with no tracked window, it leaves the
state unchanged and issues nothing. -/
theorem remove_client_resets (sp : Scratchpad) (wm : WindowManager)
    (st : OverlayState) (id cl : Nat) :
    (st.client = some cl → st.pending = false → id = cl →
      sp.remove_client wm st id =
        ({ client := none, pending := false, visible := false }, [])) ∧
    (st.client = some cl → id ≠ cl → sp.remove_client wm st id = (st, [])) ∧
    (st.client = none → sp.remove_client wm st id = (st, [])) := by
  refine ⟨?_, ?_, ?_⟩
  · intro hc hp hid
    obtain ⟨c0, p, v⟩ := st
    subst hc hp hid
    unfold Scratchpad.remove_client
    simp
  · intro hc hid
    obtain ⟨c0, p, v⟩ := st
    subst hc
    unfold Scratchpad.remove_client
    simp [hid]
  · intro hc
    obtain ⟨c0, p, v⟩ := st
    subst hc
    rfl

/-- Witness for C7: matching id, different id, and no tracked window. -/
theorem remove_client_resets_witness :
    spEx.remove_client wmEx { client := some 7, pending := false, visible := true } 7 =
      ({ client := none, pending := false, visible := false }, []) ∧
    spEx.remove_client wmEx { client := some 7, pending := false, visible := true } 9 =
      ({ client := some 7, pending := false, visible := true }, []) ∧
    spEx.remove_client wmEx OverlayState.initial 7 = (OverlayState.initial, []) :=
  ⟨(remove_client_resets spEx wmEx
      { client := some 7, pending := false, visible := true } 7 7).1 rfl rfl rfl,
   (remove_client_resets spEx wmEx
      { client := some 7, pending := false, visible := true } 9 7).2.1 rfl
      (by decide),
   (remove_client_resets spEx wmEx OverlayState.initial 7 7).2.2 rfl⟩

/-- C8: for fractions in the unit interval and an anchor whose two match arms
resolve (a valid axis combination), the region computed before the pixel
offset is added is fully contained in the screen region. -/
theorem resolved_region_contained (sp : Scratchpad) (screen : Region)
    (x0 y0 : Nat) (_hw0 : 0 ≤ sp.w) (hw1 : sp.w ≤ 1) (_hh0 : 0 ≤ sp.h)
    (hh1 : sp.h ≤ 1)
    (hx : anchor_x sp.anchor.horizontal screen.x screen.w
        (scale_frac screen.w sp.w) = some x0)
    (hy : anchor_y sp.anchor.vertical screen.y screen.h
        (scale_frac screen.h sp.h) = some y0) :
    screen.x ≤ x0 ∧ x0 + scale_frac screen.w sp.w ≤ screen.x + screen.w ∧
    screen.y ≤ y0 ∧ y0 + scale_frac screen.h sp.h ≤ screen.y + screen.h := by
  have hw := scale_frac_le screen.w sp.w hw1
  have hh := scale_frac_le screen.h sp.h hh1
  unfold anchor_x at hx
  unfold anchor_y at hy
  split at hx <;> split at hy <;> simp at hx hy <;> omega

/-- Witness for C8 at the example configuration and screen. -/
theorem resolved_region_contained_witness :
    screenEx.x ≤ 250 ∧
    250 + scale_frac screenEx.w spEx.w ≤ screenEx.x + screenEx.w ∧
    screenEx.y ≤ 200 ∧
    200 + scale_frac screenEx.h spEx.h ≤ screenEx.y + screenEx.h :=
  resolved_region_contained spEx screenEx 250 200
    (by norm_num [spEx]) (by norm_num [spEx]) (by norm_num [spEx])
    (by norm_num [spEx])
    (by simp only [spEx, screenEx, anchorEx, Region.new, anchor_x,
          scale_frac_1000_half])
    (by simp only [spEx, screenEx, anchorEx, Region.new, anchor_y,
          scale_frac_800_half])

/-- C9: construction is fatal on invalid configuration: an Anchor whose
horizontal position is Top or Bottom, or whose vertical position is Left or
Right, fails to construct, and a Scratchpad whose width or height fraction
lies outside the unit interval fails to construct. -/
theorem construction_rejects_invalid (hp vp : AnchorPosition)
    (off : Nat × Nat) (prog : String) (w h : ℚ) (a : Anchor) :
    ((hp = .Top ∨ hp = .Bottom) →
      ∃ msg, Anchor.new hp vp off = .error msg) ∧
    ((vp = .Left ∨ vp = .Right) →
      ∃ msg, Anchor.new hp vp off = .error msg) ∧
    ((w < 0 ∨ 1 < w ∨ h < 0 ∨ 1 < h) →
      ∃ msg, Scratchpad.new prog w h a = .error msg) := by
  refine ⟨?_, ?_, ?_⟩
  · intro hcond
    exact ⟨_, by unfold Anchor.new; rw [if_pos hcond]⟩
  · intro hcond
    by_cases h1 : hp = .Top ∨ hp = .Bottom
    · exact ⟨_, by unfold Anchor.new; rw [if_pos h1]⟩
    · exact ⟨_, by unfold Anchor.new; rw [if_neg h1, if_pos hcond]⟩
  · intro hcond
    exact ⟨_, by unfold Scratchpad.new; rw [if_pos hcond]⟩

/-- Witness for C9: a Top horizontal anchor, a Right vertical anchor, and a
width fraction of three halves all fail to construct. -/
theorem construction_rejects_invalid_witness :
    (∃ msg, Anchor.new .Top .Center (0, 0) = .error msg) ∧
    (∃ msg, Anchor.new .Center .Right (0, 0) = .error msg) ∧
    (∃ msg, Scratchpad.new "term" (3 / 2) (1 / 2) anchorEx = .error msg) :=
  ⟨(construction_rejects_invalid .Top .Center (0, 0) "term" (3 / 2) (1 / 2)
      anchorEx).1 (Or.inl rfl),
   (construction_rejects_invalid .Center .Right (0, 0) "term" (3 / 2) (1 / 2)
      anchorEx).2.1 (Or.inr rfl),
   (construction_rejects_invalid .Center .Center (0, 0) "term" (3 / 2) (1 / 2)
      anchorEx).2.2 (Or.inr (Or.inl (by norm_num)))⟩

/-- C10: for any Anchor obtained from the validating constructor, or from the
default constructor that delegates to it, get_position never takes an
unreachable arm: it returns a region for every screen. -/
theorem constructed_anchor_never_unreachable (hp vp : AnchorPosition)
    (off : Nat × Nat) (a : Anchor) (sp : Scratchpad) :
    (Anchor.new hp vp off = .ok a → sp.anchor = a →
      ∀ screen : Region, (sp.get_position screen).isSome = true) ∧
    (Anchor.default = .ok a → sp.anchor = a →
      ∀ screen : Region, (sp.get_position screen).isSome = true) := by
  constructor
  · intro hok ha screen
    subst ha
    obtain ⟨h1, h2, h3, h4⟩ := Anchor.new_ok hp vp off sp.anchor hok
    exact get_position_isSome sp h1 h2 h3 h4 screen
  · intro hok ha screen
    subst ha
    obtain ⟨h1, h2, h3, h4⟩ := Anchor.new_ok .Center .Center (0, 0) sp.anchor hok
    exact get_position_isSome sp h1 h2 h3 h4 screen

/-- Witness for C10 at the example anchor and two concrete screens. -/
theorem constructed_anchor_never_unreachable_witness :
    (spEx.get_position screenEx).isSome = true ∧
    (spEx.get_position (Region.new 5 7 123 456)).isSome = true :=
  ⟨(constructed_anchor_never_unreachable .Center .Center (0, 0) anchorEx
      spEx).1 rfl rfl screenEx,
   (constructed_anchor_never_unreachable .Center .Center (0, 0) anchorEx
      spEx).2 rfl rfl (Region.new 5 7 123 456)⟩
